import Mathlib

/-!
Verification of the statistics-fetching pipeline of `src/fetchers/stats-fetcher.js`
(github-readme-stats).  The JavaScript source is shallowly embedded:

* `totalCommitsFetcher` (the Year-Bucket Aggregator) becomes a pure Lean
  function parameterised by the per-year query executor, returning the
  aggregator's JavaScript return value together with the number of network
  calls it issued.
* `fetchStats` (the Profile Assembler) becomes a pure Lean function
  parameterised by the primary-query response and the per-year executor,
  returning either a classified error or the assembled stats record,
  together with the total number of network calls issued.
* JavaScript numeric slack (the `undefined` that results from destructuring
  a bare number, and the `NaN` arising from arithmetic on `undefined`) is
  made explicit in the `JSNum` type, since `totalCommitsFetcher` can return
  the bare number `0`.
-/

namespace StatsFetcher

/-- A character allowed in a GitHub handle body: ASCII letter or digit
(`[a-z\d]` with the case-insensitive flag of `github-username-regex`). -/
def isHandleChar (c : Char) : Bool :=
  (('a' ≤ c && c ≤ 'z') || ('A' ≤ c && c ≤ 'Z') || ('0' ≤ c && c ≤ '9'))

/-- The tail of the regex `(?:[a-z\d]|-(?=[a-z\d]))*`: each character is a
handle character, or a hyphen whose lookahead demands a following handle
character (so no trailing hyphen and no two consecutive hyphens). -/
def validTail : List Char → Bool
  | [] => true
  | [c] => isHandleChar c
  | c :: c' :: rest =>
    (if c = '-' then isHandleChar c' else isHandleChar c) &&
      validTail (c' :: rest)

/-- `githubUsernameRegex.test username`:
`/^[a-z\d](?:[a-z\d]|-(?=[a-z\d])){0,38}$/i`.  The first character is a
handle character, the tail has at most 38 characters and satisfies
`validTail`. -/
def isValidUsername (s : String) : Bool :=
  match s.toList with
  | [] => false
  | c :: rest => isHandleChar c && rest.length ≤ 38 && validTail rest

/-- The JavaScript value held by the aggregator's public/private commit
fields as seen by `fetchStats` after destructuring: either a genuine
non-negative number, the `undefined` obtained by destructuring a bare
number, or `NaN`. -/
inductive JSNum where
  | int (n : Nat)
  | undef
  | nan
deriving DecidableEq, Repr

/-- JavaScript `+` on the values that can reach `stats.totalCommits +=
privateCommits`: adding with `undefined` or `NaN` on either side yields
`NaN`. -/
def JSNum.add : JSNum → JSNum → JSNum
  | .int a, .int b => .int (a + b)
  | _, _ => .nan

/-- Whether a `JSNum` is a genuine non-negative integer (the
`integer ≥ 0` invariant of the stats record's numeric fields). -/
def JSNum.isInt : JSNum → Bool
  | .int _ => true
  | _ => false

/-- The JavaScript value returned by `totalCommitsFetcher`: the bare number
`0` on the invalid-username early return (line 88), or the object
`{ totalPublicCommits, totalPrivateCommits }`. -/
inductive AggResult where
  | zeroNum
  | agg (totalPublicCommits totalPrivateCommits : Nat)
deriving DecidableEq, Repr

/-- JavaScript destructuring
`const { totalPublicCommits, totalPrivateCommits } = r`: on the bare
number `0` both properties are `undefined`; on the object they are its
two numeric fields. -/
def AggResult.destructure : AggResult → JSNum × JSNum
  | .zeroNum => (.undef, .undef)
  | .agg p q => (.int p, .int q)

/-- A per-year query executor (the composition `retryer ∘ fetchYearCommits`
for a fixed username): for each contribution year it either resolves with
the pair (totalCommitContributions, restrictedContributionsCount) reached
through `res.data.data.user.contributionsCollection`, or fails (`none`):
a rejected promise, an upstream error payload leaving the data path
absent, or any exception. -/
def YearExec := Int → Option (Nat × Nat)

/-- The body of `Promise.all(contributionYears.map ...)` together with the
accumulation into `totalPublicCommits` / `totalPrivateCommits`: succeeds
with the summed pair iff every year's query succeeds. -/
def runYears (exec : YearExec) : List Int → Option (Nat × Nat)
  | [] => some (0, 0)
  | y :: ys =>
    match exec y with
    | none => none
    | some (p, r) =>
      match runYears exec ys with
      | none => none
      | some (ps, rs) => some (p + ps, r + rs)

/-- `totalCommitsFetcher(username, contributionYears)` (lines 85–118).
Result: the JavaScript return value paired with the number of per-year
network calls issued.  An invalid username returns the bare number `0`
with no calls; otherwise all years are queried (the `map` issues every
request before `Promise.all` settles) and any failure is caught and
converted to the zeroed object. -/
def totalCommitsFetcher (username : String) (contributionYears : List Int)
    (exec : YearExec) : AggResult × Nat :=
  if !isValidUsername username then
    (.zeroNum, 0)
  else
    match runYears exec contributionYears with
    | some (p, r) => (.agg p r, contributionYears.length)
    | none => (.agg 0 0, contributionYears.length)

/-- The `user` object of the primary query's response (lines 23–56):
exactly the fields the assembler reads.  `name` is `Option`al to model a
`null` name; `repoStargazers` is the list of stargazer counts of the
single sampled page of owned repositories (first 100, ordered by stars
descending). -/
structure User where
  name : Option String
  login : String
  totalCommitContributions : Nat
  restrictedContributionsCount : Nat
  contributionYears : List Int
  repositoriesContributedTo : Nat
  pullRequests : Nat
  openIssues : Nat
  closedIssues : Nat
  followers : Nat
  repoTotalCount : Nat
  repoStargazers : List Nat
deriving Repr

/-- The envelope `res.data` of the primary query: `errors` is `some` when
the response carries an (always truthy) errors array, each element's
`message` being `none` when absent. -/
structure PrimaryRes where
  errors : Option (List (Option String))
  user : User
deriving Repr

/-- The errors `fetchStats` can throw:
`MissingParamError(["username"])`, `CustomError(message, type)`, or the
uncaught `TypeError` from reading `errors[0].message` on an empty errors
array. -/
inductive FetchError where
  | missingParam (params : List String)
  | custom (message : String) (type : String)
  | typeError
deriving DecidableEq, Repr

/-- JavaScript truthiness of a string: falsy iff empty. -/
def strTruthy (s : Option String) : Bool :=
  match s with
  | none => false
  | some s => s ≠ ""

/-- `errors[0].message || "Could not fetch user"` on a non-empty errors
array. -/
def firstErrorMessage (m : Option String) : String :=
  if strTruthy m then m.getD "" else "Could not fetch user"

/-- The argument record of `calculateRank` (lines 183–191). -/
structure RankInput where
  totalCommits : JSNum
  totalRepos : Nat
  followers : Nat
  contributions : Nat
  stargazers : Nat
  prs : Nat
  issues : Nat

/-- The result of the external scoring adapter. -/
structure Rank where
  level : String
  score : Int
deriving Repr

/-- The `stats` record assembled by `fetchStats` (lines 133–141).
`totalCommits` is a `JSNum` because the invalid-username path makes it
`undefined` or `NaN`. -/
structure StatsData where
  name : String
  totalPRs : Nat
  totalCommits : JSNum
  totalIssues : Nat
  totalStars : Nat
  contributedTo : Nat
  rank : Rank
deriving Repr

/-- `fetchStats(username, count_private, include_all_commits)`
(lines 126–194), parameterised by the primary-query response, the
per-year executor and the external `calculateRank`.  The username is an
`Option` so that an absent argument (JavaScript `undefined`) is
representable; `!username` is falsy for both `none` and `some ""`.
Result: the outcome paired with the total number of network calls
issued. -/
def fetchStats (username : Option String) (count_private : Bool)
    (include_all_commits : Bool) (primary : PrimaryRes) (exec : YearExec)
    (calculateRank : RankInput → Rank) : Except FetchError StatsData × Nat :=
  if !strTruthy username then
    (.error (.missingParam ["username"]), 0)
  else
    let u := username.getD ""
    match primary.errors with
    | some [] => (.error .typeError, 1)
    | some (m :: _) =>
      (.error (.custom (firstErrorMessage m) "USER_NOT_FOUND"), 1)
    | none =>
      let user := primary.user
      let name := if strTruthy user.name then user.name.getD "" else user.login
      let totalIssues := user.openIssues + user.closedIssues
      let baseCommits : JSNum := .int user.totalCommitContributions
      let basePrivate : JSNum := .int user.restrictedContributionsCount
      let step3 :=
        if include_all_commits then
          let r := totalCommitsFetcher u user.contributionYears exec
          (r.1.destructure.1, r.1.destructure.2, r.2)
        else
          (baseCommits, basePrivate, 0)
      let totalCommits :=
        if count_private then step3.1.add step3.2.1 else step3.1
      let totalStars := user.repoStargazers.foldl (· + ·) 0
      let stats : StatsData :=
        { name := name
          totalPRs := user.pullRequests
          totalCommits := totalCommits
          totalIssues := totalIssues
          totalStars := totalStars
          contributedTo := user.repositoriesContributedTo
          rank := calculateRank
            { totalCommits := totalCommits
              totalRepos := user.repoTotalCount
              followers := user.followers
              contributions := user.repositoriesContributedTo
              stargazers := totalStars
              prs := user.pullRequests
              issues := totalIssues } }
      (.ok stats, 1 + step3.2.2)

/-! ### Concrete fixtures used to instantiate the theorems -/

/-- A concrete primary-query `user` payload. -/
def sampleUser : User :=
  { name := some "Anurag Hazra"
    login := "anuraghazra"
    totalCommitContributions := 10
    restrictedContributionsCount := 5
    contributionYears := [2020, 2021]
    repositoriesContributedTo := 61
    pullRequests := 88
    openIssues := 3
    closedIssues := 7
    followers := 100
    repoTotalCount := 42
    repoStargazers := [5, 0, 12] }

/-- A successful primary response around `sampleUser`. -/
def samplePrimary : PrimaryRes := { errors := none, user := sampleUser }

/-- A primary response whose envelope carries a non-empty errors array. -/
def errorPrimary : PrimaryRes :=
  { errors := some [some "Could not resolve to a User"], user := sampleUser }

/-- A per-year executor for which every year resolves with (50, 10). -/
def sampleExec : YearExec := fun _ => some (50, 10)

/-- A per-year executor for which exactly the year 2020 fails. -/
def failingExec : YearExec := fun y => if y = 2020 then none else some (3, 4)

/-- A concrete stand-in for the external scoring adapter. -/
def sampleRank : RankInput → Rank := fun _ => { level := "A+", score := 50 }

/-! ### Helper lemmas -/

theorem runYears_eq_none (exec : YearExec) {l : List Int} {y : Int}
    (hy : y ∈ l) (hf : exec y = none) : runYears exec l = none := by
  induction l with
  | nil => cases hy
  | cons a l ih =>
    cases hy with
    | head => simp [runYears, hf]
    | tail _ hmem =>
      rcases ha : exec a with _ | ⟨p, r⟩
      · simp [runYears, ha]
      · simp [runYears, ha, ih hmem]

theorem runYears_perm (exec : YearExec) {l l' : List Int} (h : l.Perm l') :
    runYears exec l = runYears exec l' := by
  induction h with
  | nil => rfl
  | cons x _ ih => simp [runYears, ih]
  | swap x y l =>
    simp only [runYears]
    rcases hx : exec x with _ | ⟨p₁, r₁⟩ <;>
      rcases hy : exec y with _ | ⟨p₂, r₂⟩ <;>
        rcases hr : runYears exec l with _ | ⟨ps, rs⟩ <;>
          simp [Prod.ext_iff]
    omega
  | trans _ _ ih₁ ih₂ => exact ih₁.trans ih₂

theorem foldl_add_sum (n : Nat) (l : List Nat) : l.foldl (· + ·) n = n + l.sum := by
  induction l generalizing n with
  | nil => simp
  | cons a l ih => simp [List.foldl, ih]; omega

/-! ### Claim theorems -/

/-- C1: the spec claims that for a username failing the well-formed-handle
check, `totalCommitsFetcher` returns a zeroed `CommitAggregate`
`{totalPublicCommits: 0, totalPrivateCommits: 0}` with no network calls.
The code issues no network calls, but returns the bare number `0`
(line 88), not the zeroed object: a counterexample at the invalid handle
`"-invalid-"`. -/
theorem totalCommitsFetcher_invalid_returns_bare_zero :
    totalCommitsFetcher "-invalid-" [2019, 2020] sampleExec
      = (AggResult.zeroNum, 0) ∧
    AggResult.zeroNum ≠ AggResult.agg 0 0 := by
  constructor
  · rfl
  · decide

/-- C3: if the username is well formed and any one of the per-period
queries fails, `totalCommitsFetcher` returns exactly the zeroed aggregate
`{0, 0}` (never a partial sum of the successful periods); all period
queries were still issued. -/
theorem totalCommitsFetcher_all_or_nothing (u : String) (years : List Int)
    (exec : YearExec) (y : Int) (hv : isValidUsername u = true)
    (hy : y ∈ years) (hf : exec y = none) :
    totalCommitsFetcher u years exec = (.agg 0 0, years.length) := by
  simp [totalCommitsFetcher, hv, runYears_eq_none exec hy hf]

/-- Witness for C3: with years [2019, 2020, 2021] and the 2020 query
failing while 2019 and 2021 succeed with (3, 4), the aggregate is exactly
{0, 0}, not the partial sum (6, 8). -/
theorem totalCommitsFetcher_all_or_nothing_witness :
    totalCommitsFetcher "anuraghazra" [2019, 2020, 2021] failingExec
      = (.agg 0 0, 3) :=
  totalCommitsFetcher_all_or_nothing "anuraghazra" [2019, 2020, 2021]
    failingExec 2020 (by decide) (by decide) (by decide)

/-- C9: for a well-formed username with an empty contribution-year list,
`totalCommitsFetcher` returns the zeroed aggregate {0, 0} and issues zero
per-period network calls. -/
theorem totalCommitsFetcher_empty_years (u : String) (exec : YearExec)
    (hv : isValidUsername u = true) :
    totalCommitsFetcher u [] exec = (.agg 0 0, 0) := by
  simp [totalCommitsFetcher, hv, runYears]

/-- Witness for C9. -/
theorem totalCommitsFetcher_empty_years_witness :
    totalCommitsFetcher "anuraghazra" [] sampleExec = (.agg 0 0, 0) :=
  totalCommitsFetcher_empty_years "anuraghazra" sampleExec (by decide)

/-- C6: permuting the contribution-year list does not change
`totalCommitsFetcher`'s result at all: the merged public and private sums
(and the number of calls issued) are identical, since the merge is a
commutative, associative sum. -/
theorem totalCommitsFetcher_perm (u : String) (l l' : List Int)
    (exec : YearExec) (h : l.Perm l') :
    totalCommitsFetcher u l exec = totalCommitsFetcher u l' exec := by
  simp only [totalCommitsFetcher, runYears_perm exec h, h.length_eq]

/-- Witness for C6: swapping the two years leaves the sums unchanged. -/
theorem totalCommitsFetcher_perm_witness :
    totalCommitsFetcher "anuraghazra" [2020, 2021] sampleExec
      = totalCommitsFetcher "anuraghazra" [2021, 2020] sampleExec :=
  totalCommitsFetcher_perm "anuraghazra" [2020, 2021] [2021, 2020]
    sampleExec (List.Perm.swap 2021 2020 [])

/-- C5: when the username argument is absent (`none`) or the empty string,
`fetchStats` fails with `MissingParamError(["username"])` and issues zero
network calls. -/
theorem fetchStats_missing_param (username : Option String) (cp all : Bool)
    (primary : PrimaryRes) (exec : YearExec) (cr : RankInput → Rank)
    (h : username = none ∨ username = some "") :
    fetchStats username cp all primary exec cr
      = (.error (.missingParam ["username"]), 0) := by
  rcases h with h | h <;> subst h <;> simp [fetchStats, strTruthy]

/-- Witness for C5 at the empty-string username. -/
theorem fetchStats_missing_param_witness :
    fetchStats (some "") false false samplePrimary sampleExec sampleRank
      = (.error (.missingParam ["username"]), 0) :=
  fetchStats_missing_param (some "") false false samplePrimary sampleExec
    sampleRank (Or.inr rfl)

/-- C4: when the primary response envelope carries a non-empty errors
array, `fetchStats` throws a `CustomError` carrying the first error's
message (or the default "Could not fetch user") classified
`USER_NOT_FOUND`; no stats record is produced, and the call count is 1
(the primary query only — the aggregator is never invoked). -/
theorem fetchStats_upstream_error (u : String) (m : Option String)
    (ms : List (Option String)) (cp all : Bool) (primary : PrimaryRes)
    (exec : YearExec) (cr : RankInput → Rank) (hu : u ≠ "")
    (he : primary.errors = some (m :: ms)) :
    fetchStats (some u) cp all primary exec cr
      = (.error (.custom (firstErrorMessage m) "USER_NOT_FOUND"), 1) := by
  simp [fetchStats, strTruthy, hu, he]

/-- Witness for C4. -/
theorem fetchStats_upstream_error_witness :
    fetchStats (some "anuraghazra") true true errorPrimary sampleExec
        sampleRank
      = (.error (.custom (firstErrorMessage
          (some "Could not resolve to a User")) "USER_NOT_FOUND"), 1) :=
  fetchStats_upstream_error "anuraghazra" (some "Could not resolve to a User")
    [] true true errorPrimary sampleExec sampleRank (by decide) rfl

/-- C2: flag interaction for `totalCommits`.  With a successful primary
query reporting public total P and restricted total R, and the aggregator
returning the object {A, B}: both flags off gives P; `count_private` alone
gives P + R; `include_all_commits` alone replaces P by A; both flags give
A + B. -/
theorem fetchStats_flag_interaction (u : String) (primary : PrimaryRes)
    (exec : YearExec) (cr : RankInput → Rank) (A B k : Nat) (hu : u ≠ "")
    (he : primary.errors = none)
    (hagg : totalCommitsFetcher u primary.user.contributionYears exec
      = (.agg A B, k)) :
    (fetchStats (some u) false false primary exec cr).1.map
        StatsData.totalCommits
      = .ok (.int primary.user.totalCommitContributions) ∧
    (fetchStats (some u) true false primary exec cr).1.map
        StatsData.totalCommits
      = .ok (.int (primary.user.totalCommitContributions
          + primary.user.restrictedContributionsCount)) ∧
    (fetchStats (some u) false true primary exec cr).1.map
        StatsData.totalCommits
      = .ok (.int A) ∧
    (fetchStats (some u) true true primary exec cr).1.map
        StatsData.totalCommits
      = .ok (.int (A + B)) := by
  simp [fetchStats, strTruthy, hu, he, hagg, AggResult.destructure,
    JSNum.add, Except.map]

/-- Witness for C2: the primary query reports P = 10, R = 5; the
aggregator result is {100, 20}; the four flag combinations give 10, 15,
100 and 120. -/
theorem fetchStats_flag_interaction_witness :
    (fetchStats (some "anuraghazra") false false samplePrimary sampleExec
        sampleRank).1.map StatsData.totalCommits = .ok (.int 10) ∧
    (fetchStats (some "anuraghazra") true false samplePrimary sampleExec
        sampleRank).1.map StatsData.totalCommits = .ok (.int 15) ∧
    (fetchStats (some "anuraghazra") false true samplePrimary sampleExec
        sampleRank).1.map StatsData.totalCommits = .ok (.int 100) ∧
    (fetchStats (some "anuraghazra") true true samplePrimary sampleExec
        sampleRank).1.map StatsData.totalCommits = .ok (.int 120) :=
  fetchStats_flag_interaction "anuraghazra" samplePrimary sampleExec
    sampleRank 100 20 2 (by decide) rfl (by decide)

/-- C7: on every successful run, `totalStars` is the sum of the stargazer
counts over exactly the repositories of the single sampled page returned
by the primary query; nothing else contributes. -/
theorem fetchStats_totalStars (u : String) (cp all : Bool)
    (primary : PrimaryRes) (exec : YearExec) (cr : RankInput → Rank)
    (hu : u ≠ "") (he : primary.errors = none) :
    (fetchStats (some u) cp all primary exec cr).1.map StatsData.totalStars
      = .ok primary.user.repoStargazers.sum := by
  simp [fetchStats, strTruthy, hu, he, foldl_add_sum, Except.map]

/-- Witness for C7: for the sampled page with stargazer counts
[5, 0, 12], `totalStars` is 17. -/
theorem fetchStats_totalStars_witness :
    (fetchStats (some "anuraghazra") false false samplePrimary sampleExec
        sampleRank).1.map StatsData.totalStars
      = .ok samplePrimary.user.repoStargazers.sum ∧
    samplePrimary.user.repoStargazers.sum = 17 :=
  ⟨fetchStats_totalStars "anuraghazra" false false samplePrimary sampleExec
    sampleRank (by decide) rfl, by decide⟩

/-- C8: on every successful run, `totalIssues` is the open issue count
plus the closed issue count of the single primary query, for every flag
combination (it is never aggregated across historical periods). -/
theorem fetchStats_totalIssues (u : String) (cp all : Bool)
    (primary : PrimaryRes) (exec : YearExec) (cr : RankInput → Rank)
    (hu : u ≠ "") (he : primary.errors = none) :
    (fetchStats (some u) cp all primary exec cr).1.map StatsData.totalIssues
      = .ok (primary.user.openIssues + primary.user.closedIssues) := by
  simp [fetchStats, strTruthy, hu, he, Except.map]

/-- Witness for C8: open = 3, closed = 7 gives `totalIssues` = 10. -/
theorem fetchStats_totalIssues_witness :
    (fetchStats (some "anuraghazra") true true samplePrimary sampleExec
        sampleRank).1.map StatsData.totalIssues
      = .ok (samplePrimary.user.openIssues
          + samplePrimary.user.closedIssues) ∧
    samplePrimary.user.openIssues + samplePrimary.user.closedIssues = 10 :=
  ⟨fetchStats_totalIssues "anuraghazra" true true samplePrimary sampleExec
    sampleRank (by decide) rfl, by decide⟩

/-- C10: for a non-empty username failing the handle regex, with
`include_all_commits = true`, `totalCommitsFetcher` returns the bare
number 0, and the profile `fetchStats` returns has `totalCommits` equal
to JavaScript `undefined` (and `NaN` when `count_private` is also true) —
values that are not non-negative integers, violating the stats record's
numeric invariant. -/
theorem fetchStats_invalid_username_undef (u : String) (primary : PrimaryRes)
    (exec : YearExec) (cr : RankInput → Rank) (hu : u ≠ "")
    (hv : isValidUsername u = false) (he : primary.errors = none) :
    (totalCommitsFetcher u primary.user.contributionYears exec).1
      = .zeroNum ∧
    (fetchStats (some u) false true primary exec cr).1.map
        StatsData.totalCommits
      = .ok .undef ∧
    (fetchStats (some u) true true primary exec cr).1.map
        StatsData.totalCommits
      = .ok .nan ∧
    JSNum.undef.isInt = false ∧ JSNum.nan.isInt = false := by
  refine ⟨?_, ?_, ?_, by decide, by decide⟩
  · simp [totalCommitsFetcher, hv]
  · simp [fetchStats, strTruthy, hu, he, totalCommitsFetcher, hv,
      AggResult.destructure, Except.map]
  · simp [fetchStats, strTruthy, hu, he, totalCommitsFetcher, hv,
      AggResult.destructure, JSNum.add, Except.map]

/-- Witness for C10 at the malformed handle "john--doe". -/
theorem fetchStats_invalid_username_undef_witness :
    (totalCommitsFetcher "john--doe" samplePrimary.user.contributionYears
        sampleExec).1 = .zeroNum ∧
    (fetchStats (some "john--doe") false true samplePrimary sampleExec
        sampleRank).1.map StatsData.totalCommits = .ok .undef ∧
    (fetchStats (some "john--doe") true true samplePrimary sampleExec
        sampleRank).1.map StatsData.totalCommits = .ok .nan ∧
    JSNum.undef.isInt = false ∧ JSNum.nan.isInt = false :=
  fetchStats_invalid_username_undef "john--doe" samplePrimary sampleExec
    sampleRank (by decide) (by decide) rfl

end StatsFetcher
